import Mathlib

/-!
Shallow embedding of the validation engine of `video-automation-studio`
(`src/validators/index.ts`, with the data model and constants from
`src/types.ts`).

Conventions of the embedding:
* JavaScript numbers are modelled as exact rationals (`ℚ`); no input of
  interest here exercises binary floating-point rounding.
* A JavaScript `Map`/object lookup that may miss is modelled as `Option`.
* The JavaScript truthiness tests of the source are modelled exactly:
  `!text` is true for a missing entry AND for the empty string, and
  `if (bullets_max && ...)` is false for an absent value AND for `0`.
* The `context` payload of errors/warnings (typed `any` in the source) is
  not modelled; `code`, `message` and `field` are.
* `Number.prototype.toFixed(2)` is modelled by `toFixed2` below, rounding
  the exact rational; no theorem below depends on this rendering.
-/

namespace VAStudio

/-- A JavaScript value stored in `SlideUnit.vars` (`Record<string, any>`):
a string, an array of strings (the shape the validator reads for
`bullets`), or any other defined value. An absent key is modelled by the
association list having no entry for it. -/
inductive JValue where
  | str (s : String)
  | arr (elems : List String)
  | other
deriving DecidableEq

/-- `AssetRef` from `src/types.ts`: media asset reference. The optional
license/attribution metadata is never read by the validators and is not
modelled. -/
structure AssetRef where
  kind : String
  path : String
deriving DecidableEq

/-- Constraints block of `TemplateDef` (`src/types.ts`): all three fields
are optional JavaScript numbers. -/
structure TemplateConstraints where
  bullets_max : Option ℚ
  chars_per_line_max : Option ℚ
  lines_max : Option ℚ
deriving DecidableEq

/-- `TemplateDef` from `src/types.ts`. -/
structure TemplateDef where
  id : String
  desc : String
  vars : List String
  constraints : Option TemplateConstraints
deriving DecidableEq

/-- `SlideUnit` from `src/types.ts`: `vars` is a JavaScript object, modelled
as an association list with pairwise distinct keys (lookup takes the first
match; `Object.entries` iterates the list). -/
structure SlideUnit where
  template : String
  vars : List (String × JValue)
  assets : Option (List AssetRef)
deriving DecidableEq

/-- `Section` from `src/types.ts`. `intents` is typed in the source but
arrives from untrusted JSON, so tags are modelled as plain strings. -/
structure Section where
  id : String
  scriptId : String
  order : ℚ
  text : String
  intents : Option (List String)
deriving DecidableEq

/-- `Timing` from `src/types.ts`. -/
structure Timing where
  lineId : String
  startSec : ℚ
  endSec : ℚ
  gapAfterSec : ℚ
deriving DecidableEq

/-- `ValidationError` from `src/types.ts` (the untyped `context` payload is
not modelled). -/
structure ValidationError where
  code : String
  message : String
  field : Option String
deriving DecidableEq

/-- `ValidationWarning` from `src/types.ts` (same shape as
`ValidationError`). -/
structure ValidationWarning where
  code : String
  message : String
  field : Option String
deriving DecidableEq

/-- `ValidationResult` from `src/types.ts`. -/
structure ValidationResult where
  valid : Bool
  errors : List ValidationError
  warnings : List ValidationWarning
deriving DecidableEq

/-- The `SPEECH_DENSITY` constant object of `src/types.ts`. -/
structure SpeechDensityBand where
  MIN : ℚ
  MAX : ℚ

/-- `SPEECH_DENSITY = { MIN: 12, MAX: 28 }`. -/
def SPEECH_DENSITY : SpeechDensityBand := ⟨12, 28⟩

/-- Model of `Number.prototype.toFixed(2)` on an exact rational: round to
two decimals and render with a two-digit fractional part. Binary-float
rounding of the source is not reproduced; no theorem depends on this
string. -/
def toFixed2 (q : ℚ) : String :=
  let n : ℤ := Int.floor (q * 100 + 1 / 2)
  let a := n.natAbs
  let whole := a / 100
  let frac := a % 100
  (if n < 0 then "-" else "") ++ toString whole ++ "." ++
    (if frac < 10 then "0" ++ toString frac else toString frac)

/-- `validateSlideUnit` from `src/validators/index.ts`: one slide against
its template, returning violation messages in source push order
(missing vars, then constraint violations, then asset violations).
The source guards each constraint with JavaScript truthiness
(`if (bullets_max && ...)`, `if (chars_per_line_max)`, `if (lines_max)`),
so an absent value and the value `0` both disable the check; this is
modelled by matching the `Option` and then testing the value against `0`. -/
def validateSlideUnit (unit : SlideUnit) (template : TemplateDef) :
    List String :=
  let missingVarErrors := template.vars.filterMap fun varName =>
    if (unit.vars.lookup varName).isNone then
      some ("missing var: " ++ varName)
    else none
  let constraintErrors :=
    match template.constraints with
    | none => []
    | some c =>
      let bulletErrors :=
        match c.bullets_max, unit.vars.lookup ("bullets") with
        | some bm, some (JValue.arr bullets) =>
          if bm ≠ 0 then
            (if (bullets.length : ℚ) > bm then
              ["too many bullets: " ++ toString bullets.length ++ " > " ++
                toString bm]
            else []) ++
            (match c.chars_per_line_max with
             | some cm =>
               if cm ≠ 0 then
                 bullets.enum.filterMap fun p =>
                   if (p.2.length : ℚ) > cm then
                     some ("bullet[" ++ toString p.1 ++ "] too long: " ++
                       toString p.2.length ++ " > " ++ toString cm)
                   else none
               else []
             | none => [])
          else []
        | _, _ => []
      let lineErrors :=
        match c.chars_per_line_max with
        | some cm =>
          if cm ≠ 0 then
            (unit.vars.map fun kv =>
              match kv.2 with
              | JValue.str s =>
                if kv.1 ≠ "code" then
                  (s.splitOn ("\n")).enum.filterMap fun p =>
                    if (p.2.length : ℚ) > cm then
                      some (kv.1 ++ "[line " ++ toString p.1 ++
                        "] too long: " ++ toString p.2.length ++ " > " ++
                        toString cm)
                    else none
                else []
              | _ => []).flatten
          else []
        | none => []
      let lineCountErrors :=
        match c.lines_max with
        | some lm =>
          if lm ≠ 0 then
            let totalLines := unit.vars.foldl
              (fun count kv =>
                match kv.2 with
                | JValue.str s =>
                  if kv.1 ≠ "code" then count + (s.splitOn ("\n")).length
                  else count
                | JValue.arr l => count + l.length
                | JValue.other => count)
              0
            if (totalLines : ℚ) > lm then
              ["too many lines: " ++ toString totalLines ++ " > " ++
                toString lm]
            else []
          else []
        | none => []
      bulletErrors ++ lineErrors ++ lineCountErrors
  let assetErrors :=
    match unit.assets with
    | none => []
    | some assets =>
      assets.enum.filterMap fun p =>
        if p.2.path = "" ∨ p.2.path = "missing://" then
          some ("asset[" ++ toString p.1 ++ "] has missing path")
        else none
  missingVarErrors ++ constraintErrors ++ assetErrors

/-- The template catalog lookup of `validateSlideSpec`:
`new Map(templates.map(t => [t.id, t])).get(id)`. A later entry with the
same id overwrites an earlier one, exactly as in a JavaScript `Map`. -/
def templateMapGet (templates : List TemplateDef) (id : String) :
    Option TemplateDef :=
  templates.foldl (fun acc t => if t.id = id then some t else acc) none

/-- The body of the `slides.forEach` loop of `validateSlideSpec`: the
errors one slide at position `idx` contributes. An unknown template id
yields the single `UNKNOWN_TEMPLATE` error and returns early; otherwise
every message of `validateSlideUnit` is wrapped as a
`SLIDE_VALIDATION_ERROR`. -/
def slideEntryErrors (templates : List TemplateDef) (idx : Nat)
    (slide : SlideUnit) : List ValidationError :=
  match templateMapGet templates slide.template with
  | none =>
    [⟨"UNKNOWN_TEMPLATE", "Unknown template: " ++ slide.template,
      some ("slides[" ++ toString idx ++ "].template")⟩]
  | some template =>
    (validateSlideUnit slide template).map fun err =>
      ⟨"SLIDE_VALIDATION_ERROR", err, some ("slides[" ++ toString idx ++ "]")⟩

/-- `validateSlideSpec` from `src/validators/index.ts`: the `forEach` over
`slides` pushes each slide's errors in order; no warning is ever pushed. -/
def validateSlideSpec (slides : List SlideUnit)
    (templates : List TemplateDef) : ValidationResult :=
  let errors :=
    (slides.enum.map fun p => slideEntryErrors templates p.1 p.2).flatten
  let warnings : List ValidationWarning := []
  ⟨errors.length == 0, errors, warnings⟩

/-- The closed intent vocabulary of `validateSection`. -/
def validIntents : List String :=
  ["summary", "procedure", "caution", "tip", "example", "intro",
   "conclusion"]

/-- `validateSection` from `src/validators/index.ts`: length heuristics and
intent-vocabulary checks, warnings only. `if (section.intents)` is the
JavaScript truthiness test of the optional array (an array, even empty, is
truthy), modelled by the `Option` match. -/
def validateSection (sec : Section) : ValidationResult :=
  let errors : List ValidationError := []
  let shortWarnings :=
    if sec.text.length < 300 then
      [⟨"SECTION_TOO_SHORT",
        "Section text is shorter than recommended: " ++
          toString sec.text.length ++ " < 300", some ("text")⟩]
    else ([] : List ValidationWarning)
  let longWarnings :=
    if sec.text.length > 600 then
      [⟨"SECTION_TOO_LONG",
        "Section text is longer than recommended: " ++
          toString sec.text.length ++ " > 600", some ("text")⟩]
    else ([] : List ValidationWarning)
  let intentWarnings :=
    match sec.intents with
    | none => []
    | some intents =>
      intents.filterMap fun intent =>
        if validIntents.contains intent then none
        else
          some ⟨"INVALID_INTENT", "Unknown intent type: " ++ intent,
            some ("intents")⟩
  ⟨errors.length == 0, errors, shortWarnings ++ longWarnings ++ intentWarnings⟩

/-- The body of the `timings.forEach` loop of `validateSpeechDensity`: the
(errors, warnings) one timing entry contributes. The source's `if (!text)`
is a JavaScript truthiness test: it fires both when the map has no entry
for `lineId` and when the stored text is the empty string. -/
def speechEntryFindings (textMap : String → Option String) (timing : Timing) :
    List ValidationError × List ValidationWarning :=
  let missingText : List ValidationError × List ValidationWarning :=
    ([], [⟨"MISSING_TEXT", "No text found for lineId: " ++ timing.lineId,
      some ("lineId")⟩])
  match textMap timing.lineId with
  | none => missingText
  | some text =>
    if text = "" then missingText
    else
      let duration := timing.endSec - timing.startSec
      if duration ≤ 0 then
        ([⟨"INVALID_DURATION",
          "Invalid duration for lineId " ++ timing.lineId ++ ": " ++
            toString duration, some ("duration")⟩], [])
      else
        let charsPerSec := (text.length : ℚ) / duration
        let slowWarnings :=
          if charsPerSec < SPEECH_DENSITY.MIN then
            [⟨"SPEECH_TOO_SLOW",
              "Speech density too low: " ++ toFixed2 charsPerSec ++ " < " ++
                toString SPEECH_DENSITY.MIN, some ("timing")⟩]
          else ([] : List ValidationWarning)
        let fastWarnings :=
          if charsPerSec > SPEECH_DENSITY.MAX then
            [⟨"SPEECH_TOO_FAST",
              "Speech density too high: " ++ toFixed2 charsPerSec ++ " > " ++
                toString SPEECH_DENSITY.MAX, some ("timing")⟩]
          else ([] : List ValidationWarning)
        ([], slowWarnings ++ fastWarnings)

/-- `validateSpeechDensity` from `src/validators/index.ts`: the `forEach`
pushes each entry's errors and warnings in order, so the result lists are
the concatenations of the per-entry contributions. -/
def validateSpeechDensity (timings : List Timing)
    (textMap : String → Option String) : ValidationResult :=
  let perEntry := timings.map (speechEntryFindings textMap)
  let errors := (perEntry.map Prod.fst).flatten
  let warnings := (perEntry.map Prod.snd).flatten
  ⟨errors.length == 0, errors, warnings⟩

/-- The body of the index loop of `validateTimingSync`: the
(errors, warnings) one adjacent pair `(current, nxt)` contributes. -/
def timingPairFindings (current nxt : Timing) :
    List ValidationError × List ValidationWarning :=
  let currentEnd := current.endSec + current.gapAfterSec
  let overlapErrors :=
    if currentEnd > nxt.startSec then
      [⟨"TIMING_OVERLAP",
        "Timing overlap detected between " ++ current.lineId ++ " and " ++
          nxt.lineId, some ("timings")⟩]
    else ([] : List ValidationError)
  let gap := nxt.startSec - currentEnd
  let gapWarnings :=
    if gap > 1 then
      [⟨"LARGE_GAP",
        "Large gap detected: " ++ toFixed2 gap ++ "s between " ++
          current.lineId ++ " and " ++ nxt.lineId, some ("timings")⟩]
    else ([] : List ValidationWarning)
  (overlapErrors, gapWarnings)

/-- `validateTimingSync` from `src/validators/index.ts`: the source loops
`i` from `0` to `length - 2` over `(timings[i], timings[i+1])`, i.e. over
exactly the adjacent pairs `timings.zip timings.tail`. -/
def validateTimingSync (timings : List Timing) : ValidationResult :=
  let pairs := timings.zip timings.tail
  let errors := (pairs.map fun p => (timingPairFindings p.1 p.2).1).flatten
  let warnings := (pairs.map fun p => (timingPairFindings p.1 p.2).2).flatten
  ⟨errors.length == 0, errors, warnings⟩

/-- Auxiliary: `validateSpeechDensity` processes its entries independently,
so its error and warning lists are the concatenations of the lists produced
for each entry alone. -/
theorem speechDensity_decomp (textMap : String → Option String)
    (ts : List Timing) :
    (validateSpeechDensity ts textMap).errors
      = (ts.map fun u => (validateSpeechDensity [u] textMap).errors).flatten ∧
    (validateSpeechDensity ts textMap).warnings
      = (ts.map fun u => (validateSpeechDensity [u] textMap).warnings).flatten := by
  constructor <;>
    simp [validateSpeechDensity, List.map_map, Function.comp_def]

/-- Auxiliary: a result whose `valid` field is the source's
`errors.length === 0` test is valid exactly when `errors` is empty. -/
theorem result_valid_iff (r : ValidationResult)
    (h : r.valid = (r.errors.length == 0)) :
    r.valid = true ↔ r.errors = [] := by
  rw [h]
  simp [List.length_eq_zero]

/-- C4: each of the four `ValidationResult`-returning validators
(`validateSlideSpec`, `validateSection`, `validateSpeechDensity`,
`validateTimingSync`) returns `valid = true` exactly when its `errors`
list is empty. -/
theorem valid_iff_errors_empty :
    (∀ (slides : List SlideUnit) (templates : List TemplateDef),
        (validateSlideSpec slides templates).valid = true ↔
          (validateSlideSpec slides templates).errors = []) ∧
    (∀ sec : Section,
        (validateSection sec).valid = true ↔
          (validateSection sec).errors = []) ∧
    (∀ (ts : List Timing) (m : String → Option String),
        (validateSpeechDensity ts m).valid = true ↔
          (validateSpeechDensity ts m).errors = []) ∧
    (∀ ts : List Timing,
        (validateTimingSync ts).valid = true ↔
          (validateTimingSync ts).errors = []) := by
  exact ⟨fun slides templates => result_valid_iff _ rfl,
    fun sec => result_valid_iff _ rfl,
    fun ts m => result_valid_iff _ rfl,
    fun ts => result_valid_iff _ rfl⟩

/-- C2: `validateTimingSync` visits exactly the adjacent pairs of the given
sequence, and a pair `(A, B)` contributes a `TIMING_OVERLAP` error exactly
when `A.endSec + A.gapAfterSec > B.startSec` holds strictly; in particular
equality contributes no error at all. -/
theorem timingOverlap_iff :
    (∀ timings : List Timing,
        (validateTimingSync timings).errors
          = ((timings.zip timings.tail).map fun p =>
              (timingPairFindings p.1 p.2).1).flatten) ∧
    (∀ A B : Timing,
        ((timingPairFindings A B).1.countP fun e =>
            e.code == "TIMING_OVERLAP")
          = (if A.endSec + A.gapAfterSec > B.startSec then 1 else 0) ∧
        (A.endSec + A.gapAfterSec = B.startSec →
          (timingPairFindings A B).1 = [])) := by
  constructor
  · intro timings
    simp [validateTimingSync]
  · intro A B
    constructor
    · by_cases h : A.endSec + A.gapAfterSec > B.startSec <;>
        simp [timingPairFindings, h, List.countP_cons]
    · intro h
      simp [timingPairFindings, h]

/-- C6: a pair `(A, B)` contributes a `LARGE_GAP` finding exactly when
`B.startSec - (A.endSec + A.gapAfterSec) > 1` holds strictly, a gap of
exactly `1` contributes nothing, and `LARGE_GAP` only ever appears among
warnings, never among errors. -/
theorem largeGap_iff :
    (∀ timings : List Timing,
        (validateTimingSync timings).warnings
          = ((timings.zip timings.tail).map fun p =>
              (timingPairFindings p.1 p.2).2).flatten ∧
        ((validateTimingSync timings).errors.countP fun e =>
            e.code == "LARGE_GAP") = 0) ∧
    (∀ A B : Timing,
        ((timingPairFindings A B).2.countP fun w => w.code == "LARGE_GAP")
          = (if B.startSec - (A.endSec + A.gapAfterSec) > 1 then 1 else 0) ∧
        (B.startSec - (A.endSec + A.gapAfterSec) = 1 →
          (timingPairFindings A B).2 = []) ∧
        ((timingPairFindings A B).1.countP fun e =>
            e.code == "LARGE_GAP") = 0) := by
  constructor
  · intro timings
    constructor
    · simp [validateTimingSync]
    · simp only [validateTimingSync, List.countP_eq_zero]
      intro e he
      simp only [List.mem_flatten, List.mem_map] at he
      obtain ⟨l, ⟨p, hp, rfl⟩, hel⟩ := he
      revert hel
      by_cases h : p.1.endSec + p.1.gapAfterSec > p.2.startSec <;>
        simp [timingPairFindings, h]
      rintro rfl
      simp
  · intro A B
    refine ⟨?_, ?_, ?_⟩
    · by_cases h : B.startSec - (A.endSec + A.gapAfterSec) > 1 <;>
        simp [timingPairFindings, h, List.countP_cons]
    · intro h
      simp [timingPairFindings, h]
    · by_cases h : A.endSec + A.gapAfterSec > B.startSec <;>
        simp [timingPairFindings, h, List.countP_cons]

/-- Auxiliary: on a single-entry run the validator's output is that entry's
contribution. -/
theorem speechDensity_singleton (textMap : String → Option String)
    (t : Timing) :
    (validateSpeechDensity [t] textMap).errors
      = (speechEntryFindings textMap t).1 ∧
    (validateSpeechDensity [t] textMap).warnings
      = (speechEntryFindings textMap t).2 := by
  constructor <;> simp [validateSpeechDensity]

/-- C1 (amended): for every timing entry whose text lookup yields a
non-empty text `s` (the source's `if (!text)` also skips an entry whose
stored text is empty) and whose duration `D = endSec - startSec` is
strictly positive, `validateSpeechDensity` scores
`charsPerSec = s.length / D`: a value in the closed band `[12, 28]`
produces no finding for the entry, a value strictly below `12` produces
exactly one `SPEECH_TOO_SLOW` warning, a value strictly above `28`
produces exactly one `SPEECH_TOO_FAST` warning, and the entry contributes
no error; a full run concatenates the per-entry contributions. -/
theorem speechDensity_band (textMap : String → Option String) (t : Timing)
    (s : String) (hs : textMap t.lineId = some s) (hne : s ≠ "")
    (hd : 0 < t.endSec - t.startSec) :
    (validateSpeechDensity [t] textMap).errors = [] ∧
    ((12 : ℚ) ≤ (s.length : ℚ) / (t.endSec - t.startSec) ∧
        (s.length : ℚ) / (t.endSec - t.startSec) ≤ 28 →
      (validateSpeechDensity [t] textMap).warnings = []) ∧
    ((s.length : ℚ) / (t.endSec - t.startSec) < 12 →
      (validateSpeechDensity [t] textMap).warnings.map ValidationWarning.code
        = ["SPEECH_TOO_SLOW"]) ∧
    ((28 : ℚ) < (s.length : ℚ) / (t.endSec - t.startSec) →
      (validateSpeechDensity [t] textMap).warnings.map ValidationWarning.code
        = ["SPEECH_TOO_FAST"]) ∧
    (∀ ts : List Timing,
      (validateSpeechDensity ts textMap).errors
        = (ts.map fun u => (validateSpeechDensity [u] textMap).errors).flatten ∧
      (validateSpeechDensity ts textMap).warnings
        = (ts.map fun u =>
            (validateSpeechDensity [u] textMap).warnings).flatten) := by
  have hd' : ¬ (t.endSec - t.startSec ≤ 0) := not_le.mpr hd
  obtain ⟨he, hw⟩ := speechDensity_singleton textMap t
  refine ⟨?_, ?_, ?_, ?_, fun ts => speechDensity_decomp textMap ts⟩
  · rw [he]
    simp [speechEntryFindings, hs, hne, hd']
  · rintro ⟨h1, h2⟩
    rw [hw]
    simp [speechEntryFindings, hs, hne, hd', SPEECH_DENSITY,
      not_lt.mpr h1, not_lt.mpr h2]
  · intro h
    have h' : ¬ ((28 : ℚ) < (s.length : ℚ) / (t.endSec - t.startSec)) := by
      intro hc
      linarith
    rw [hw]
    simp [speechEntryFindings, hs, hne, hd', SPEECH_DENSITY, h, h']
  · intro h
    have h' : ¬ ((s.length : ℚ) / (t.endSec - t.startSec) < 12) := by
      intro hc
      linarith
    rw [hw]
    simp [speechEntryFindings, hs, hne, hd', SPEECH_DENSITY, h, h']

/-- Witness for `speechDensity_band`: a 20-character text over one second
scores 20 chars/sec, inside the band, and yields no finding. -/
theorem speechDensity_band_witness :
    (validateSpeechDensity [⟨"l1", 0, 1, 0⟩]
        (fun i => if i = "l1" then some ("aaaaaaaaaaaaaaaaaaaa") else none)).warnings
      = [] ∧
    (validateSpeechDensity [⟨"l1", 0, 1, 0⟩]
        (fun i => if i = "l1" then some ("aaaaaaaaaaaaaaaaaaaa") else none)).errors
      = [] := by
  have h := speechDensity_band
    (fun i => if i = "l1" then some ("aaaaaaaaaaaaaaaaaaaa") else none)
    ⟨"l1", 0, 1, 0⟩ ("aaaaaaaaaaaaaaaaaaaa") (by rfl) (by decide)
    (by norm_num)
  exact ⟨h.2.1 (by norm_num [show ("aaaaaaaaaaaaaaaaaaaa").length = 20 from rfl]),
    h.1⟩

/-- Counterexample to C1 as stated: for the entry below the text lookup
succeeds (the map stores the empty string), the duration is positive and
`charsPerSec = 0 < 12`, yet no `SPEECH_TOO_SLOW` warning is produced —
the source's truthiness test routes the empty text to `MISSING_TEXT`. -/
theorem speechDensity_emptyText_cex :
    (fun i => if i = "l1" then some ("") else none) ("l1")
        = some ("") ∧
    (0 : ℚ) < 1 - 0 ∧
    ((("" : String).length : ℚ) / (1 - 0) < 12) ∧
    ((validateSpeechDensity [⟨"l1", 0, 1, 0⟩]
        (fun i => if i = "l1" then some ("") else none)).warnings.countP
        fun w => w.code == "SPEECH_TOO_SLOW") = 0 := by
  refine ⟨rfl, by norm_num, by norm_num [show ("" : String).length = 0 from rfl], ?_⟩
  simp [validateSpeechDensity, speechEntryFindings, List.countP_cons]

/-- C5 (amended): for every timing entry whose text lookup yields a
non-empty text, a non-positive duration yields exactly one
`INVALID_DURATION` error and excludes the entry from density scoring (it
contributes no warning at all); a full run concatenates the per-entry
contributions. -/
theorem invalidDuration_excludes (textMap : String → Option String)
    (t : Timing) (s : String) (hs : textMap t.lineId = some s)
    (hne : s ≠ "") (hd : t.endSec - t.startSec ≤ 0) :
    (validateSpeechDensity [t] textMap).errors.map ValidationError.code
      = ["INVALID_DURATION"] ∧
    (validateSpeechDensity [t] textMap).warnings = [] ∧
    (∀ ts : List Timing,
      (validateSpeechDensity ts textMap).errors
        = (ts.map fun u => (validateSpeechDensity [u] textMap).errors).flatten ∧
      (validateSpeechDensity ts textMap).warnings
        = (ts.map fun u =>
            (validateSpeechDensity [u] textMap).warnings).flatten) := by
  obtain ⟨he, hw⟩ := speechDensity_singleton textMap t
  refine ⟨?_, ?_, fun ts => speechDensity_decomp textMap ts⟩
  · rw [he]
    simp [speechEntryFindings, hs, hne, hd]
  · rw [hw]
    simp [speechEntryFindings, hs, hne, hd]

/-- Witness for `invalidDuration_excludes`: a zero-length utterance with
stored text yields the single `INVALID_DURATION` error and no warning. -/
theorem invalidDuration_excludes_witness :
    (validateSpeechDensity [⟨"l1", 2, 2, 0⟩]
        (fun i => if i = "l1" then some ("ab") else none)).errors.map
        ValidationError.code
      = ["INVALID_DURATION"] ∧
    (validateSpeechDensity [⟨"l1", 2, 2, 0⟩]
        (fun i => if i = "l1" then some ("ab") else none)).warnings = [] := by
  have h := invalidDuration_excludes
    (fun i => if i = "l1" then some ("ab") else none)
    ⟨"l1", 2, 2, 0⟩ ("ab") (by rfl) (by decide) (by norm_num)
  exact ⟨h.1, h.2.1⟩

/-- Counterexample to C5 as stated: for the entry below the text lookup
succeeds (the map stores the empty string) and the duration is `0 ≤ 0`,
yet no `INVALID_DURATION` error is produced — the truthiness test routes
the empty text to `MISSING_TEXT` before the duration check runs. -/
theorem invalidDuration_emptyText_cex :
    (fun i => if i = "l1" then some ("") else none) ("l1")
        = some ("") ∧
    ((⟨"l1", 2, 2, 0⟩ : Timing).endSec - (⟨"l1", 2, 2, 0⟩ : Timing).startSec
        ≤ 0) ∧
    (validateSpeechDensity [⟨"l1", 2, 2, 0⟩]
        (fun i => if i = "l1" then some ("") else none)).errors = [] ∧
    (validateSpeechDensity [⟨"l1", 2, 2, 0⟩]
        (fun i => if i = "l1" then some ("") else none)).warnings.map
        ValidationWarning.code
      = ["MISSING_TEXT"] := by
  refine ⟨rfl, by norm_num, ?_, ?_⟩ <;>
    simp [validateSpeechDensity, speechEntryFindings]

/-- C8 (amended): `validateSpeechDensity` emits a `MISSING_TEXT` finding
for an entry exactly when the lookup misses OR returns the empty string
(JavaScript truthiness of `!text`); when it does, the entry contributes no
error and exactly that single warning (duration and density checks are
skipped); a full run concatenates the per-entry contributions. -/
theorem missingText_iff (textMap : String → Option String) (t : Timing) :
    (((validateSpeechDensity [t] textMap).warnings.countP fun w =>
        w.code == "MISSING_TEXT") = 1
      ↔ (textMap t.lineId = none ∨ textMap t.lineId = some "")) ∧
    ((textMap t.lineId = none ∨ textMap t.lineId = some "") →
      (validateSpeechDensity [t] textMap).errors = [] ∧
      (validateSpeechDensity [t] textMap).warnings
        = [⟨"MISSING_TEXT", "No text found for lineId: " ++ t.lineId,
            some ("lineId")⟩]) ∧
    (∀ ts : List Timing,
      (validateSpeechDensity ts textMap).errors
        = (ts.map fun u => (validateSpeechDensity [u] textMap).errors).flatten ∧
      (validateSpeechDensity ts textMap).warnings
        = (ts.map fun u =>
            (validateSpeechDensity [u] textMap).warnings).flatten) := by
  obtain ⟨he, hw⟩ := speechDensity_singleton textMap t
  have hcase :
      (textMap t.lineId = none ∨ textMap t.lineId = some "") →
        speechEntryFindings textMap t
          = ([], [⟨"MISSING_TEXT",
              "No text found for lineId: " ++ t.lineId, some ("lineId")⟩]) := by
    rintro (h | h) <;> simp [speechEntryFindings, h]
  refine ⟨?_, fun h => ⟨by rw [he, (hcase h)], by rw [hw, (hcase h)]⟩,
    fun ts => speechDensity_decomp textMap ts⟩
  rw [hw]
  constructor
  · intro hcount
    by_contra hfalsy
    push_neg at hfalsy
    obtain ⟨hnone, hempty⟩ := hfalsy
    obtain ⟨s, hsome⟩ := Option.ne_none_iff_exists'.mp hnone
    have hne : s ≠ "" := fun h => hempty (h ▸ hsome)
    revert hcount
    by_cases hdur : t.endSec - t.startSec ≤ 0
    · simp [speechEntryFindings, hsome, hne, hdur]
    · by_cases hslow :
        ((s.length : ℚ) / (t.endSec - t.startSec) < SPEECH_DENSITY.MIN) <;>
      by_cases hfast :
        ((s.length : ℚ) / (t.endSec - t.startSec) > SPEECH_DENSITY.MAX) <;>
        simp [speechEntryFindings, hsome, hne, hdur, hslow, hfast,
          List.countP_cons]
  · intro h
    rw [hcase h]
    simp [List.countP_cons]

/-- Counterexample to C8 as stated: the map below has an entry for `"l1"`
(the empty string), so the lookup does not miss, yet `MISSING_TEXT` is
emitted for the entry. -/
theorem missingText_emptyText_cex :
    (fun i => if i = "l1" then some ("") else none) ("l1")
        = some ("") ∧
    ((validateSpeechDensity [⟨"l1", 0, 1, 0⟩]
        (fun i => if i = "l1" then some ("") else none)).warnings.countP
        fun w => w.code == "MISSING_TEXT") = 1 := by
  refine ⟨rfl, ?_⟩
  simp [validateSpeechDensity, speechEntryFindings, List.countP_cons]

/-- C3: a slide whose template id is absent from the catalog contributes
exactly the one `UNKNOWN_TEMPLATE` error, attributed to its index through
the `field` locator, and nothing else (in particular no
`SLIDE_VALIDATION_ERROR`); `validateSlideSpec` is the concatenation of the
independent per-slide contributions and never warns. -/
theorem unknownTemplate_one_error (templates : List TemplateDef) (idx : Nat)
    (slide : SlideUnit)
    (h : templateMapGet templates slide.template = none) :
    slideEntryErrors templates idx slide
      = [⟨"UNKNOWN_TEMPLATE", "Unknown template: " ++ slide.template,
          some ("slides[" ++ toString idx ++ "].template")⟩] ∧
    (∀ slides : List SlideUnit,
      (validateSlideSpec slides templates).errors
        = (slides.enum.map fun p =>
            slideEntryErrors templates p.1 p.2).flatten ∧
      (validateSlideSpec slides templates).warnings = []) := by
  refine ⟨?_, fun slides => ⟨?_, ?_⟩⟩
  · simp [slideEntryErrors, h]
  · simp [validateSlideSpec]
  · simp [validateSlideSpec]

/-- Witness for `unknownTemplate_one_error`: an empty catalog knows no
template, so the slide below yields the single `UNKNOWN_TEMPLATE` error. -/
theorem unknownTemplate_one_error_witness :
    slideEntryErrors [] 0 ⟨"tpl-x", [], none⟩
      = [⟨"UNKNOWN_TEMPLATE", "Unknown template: " ++ "tpl-x",
          some ("slides[" ++ toString 0 ++ "].template")⟩] ∧
    (validateSlideSpec [⟨"tpl-x", [], none⟩] []).warnings = [] := by
  have h := unknownTemplate_one_error [] 0 ⟨"tpl-x", [], none⟩ rfl
  exact ⟨h.1, (h.2 [⟨"tpl-x", [], none⟩]).2⟩

/-- Auxiliary: the `INVALID_INTENT` warnings of `validateSection` number
exactly the tags outside the closed vocabulary. -/
theorem countP_intent_warnings (l : List String) :
    ((l.filterMap fun intent =>
        if intent ∈ validIntents then none
        else
          some (⟨"INVALID_INTENT", "Unknown intent type: " ++ intent,
            some ("intents")⟩ : ValidationWarning)).countP fun w =>
        w.code == "INVALID_INTENT")
      = l.countP fun intent => !decide (intent ∈ validIntents) := by
  induction l with
  | nil => simp
  | cons a l ih =>
    by_cases h : a ∈ validIntents <;>
      simp [h, ih, List.countP_cons]

/-- C7: `validateSection` never errs (so its result is always valid); it
warns `SECTION_TOO_SHORT` exactly when the text is strictly shorter than
300 characters, `SECTION_TOO_LONG` exactly when it is strictly longer than
600 characters, and one `INVALID_INTENT` per tag outside the closed
vocabulary. -/
theorem section_warnings_only (sec : Section) :
    (validateSection sec).errors = [] ∧
    (validateSection sec).valid = true ∧
    ((validateSection sec).warnings.countP fun w =>
        w.code == "SECTION_TOO_SHORT")
      = (if sec.text.length < 300 then 1 else 0) ∧
    ((validateSection sec).warnings.countP fun w =>
        w.code == "SECTION_TOO_LONG")
      = (if sec.text.length > 600 then 1 else 0) ∧
    ((validateSection sec).warnings.countP fun w =>
        w.code == "INVALID_INTENT")
      = ((sec.intents.getD []).countP fun intent =>
          !(validIntents.contains intent)) := by
  refine ⟨rfl, rfl, ?_, ?_, ?_⟩ <;>
    · cases hi : sec.intents <;>
        by_cases h3 : sec.text.length < 300 <;>
        by_cases h6 : sec.text.length > 600 <;>
        simp [validateSection, hi, h3, h6, List.countP_append,
          List.countP_cons, countP_intent_warnings] <;>
        · rintro a x hx hnx rfl
          simp

/-- C9: a slide unit validated against a template requiring `title` and
`bullets` whose only constraint is `bullets_max = 3`, defining both
required variables with a four-element `bullets` array and carrying no
asset with an empty or sentinel path, yields exactly the single violation
message "too many bullets: 4 > 3". -/
theorem too_many_bullets_scenario (u : SlideUnit) (bs : List String)
    (htitle : (u.vars.lookup ("title")).isSome)
    (hb : u.vars.lookup ("bullets") = some (JValue.arr bs))
    (hlen : bs.length = 4)
    (ha : ∀ a ∈ u.assets.getD [], ¬ (a.path = "" ∨ a.path = "missing://")) :
    validateSlideUnit u
        ⟨"t1", "d", ["title", "bullets"], some ⟨some 3, none, none⟩⟩
      = ["too many bullets: 4 > 3"] := by
  obtain ⟨tv, htv⟩ := Option.isSome_iff_exists.mp htitle
  have h34 : (3 : ℚ) < 4 := by norm_num
  cases hA : u.assets with
  | none =>
    simp [validateSlideUnit, htv, hb, hlen, hA, h34]
    rfl
  | some l =>
    have ha' : ∀ a ∈ l, ¬ (a.path = "" ∨ a.path = "missing://") := by
      intro a hal
      exact ha a (by simpa [hA] using hal)
    simp [validateSlideUnit, htv, hb, hlen, hA, h34]
    refine ⟨by rfl, fun i b hib => ?_⟩
    have hnb := ha' b (List.snd_mem_of_mem_enum hib)
    push_neg at hnb
    exact hnb

/-- Witness for `too_many_bullets_scenario`: a concrete slide with four
bullets against the `bullets_max = 3` template. -/
theorem too_many_bullets_scenario_witness :
    validateSlideUnit
        ⟨"t1",
         [("title", JValue.str ("T")),
          ("bullets", JValue.arr ["a", "b", "c", "d"])], none⟩
        ⟨"t1", "d", ["title", "bullets"], some ⟨some 3, none, none⟩⟩
      = ["too many bullets: 4 > 3"] :=
  too_many_bullets_scenario _ ["a", "b", "c", "d"] (by rfl) (by rfl)
    (by rfl) (by simp)

/-- C10: setting any of the three template constraint values to `0`
disables the corresponding check entirely — `validateSlideUnit` behaves
exactly as if that constraint were absent, because the source tests each
value for JavaScript truthiness rather than for presence; in particular a
slide with arbitrary variables checked against a template whose only
constraint is `bullets_max = 0` yields no violation at all, whatever the
length of its `bullets` array. -/
theorem zero_constraint_disables_check :
    (∀ (u : SlideUnit) (i d : String) (vs : List String)
        (cpl lm : Option ℚ),
      validateSlideUnit u ⟨i, d, vs, some ⟨some 0, cpl, lm⟩⟩
        = validateSlideUnit u ⟨i, d, vs, some ⟨none, cpl, lm⟩⟩) ∧
    (∀ (u : SlideUnit) (i d : String) (vs : List String)
        (bm lm : Option ℚ),
      validateSlideUnit u ⟨i, d, vs, some ⟨bm, some 0, lm⟩⟩
        = validateSlideUnit u ⟨i, d, vs, some ⟨bm, none, lm⟩⟩) ∧
    (∀ (u : SlideUnit) (i d : String) (vs : List String)
        (bm cpl : Option ℚ),
      validateSlideUnit u ⟨i, d, vs, some ⟨bm, cpl, some 0⟩⟩
        = validateSlideUnit u ⟨i, d, vs, some ⟨bm, cpl, none⟩⟩) ∧
    (∀ vars : List (String × JValue),
      validateSlideUnit ⟨"t", vars, none⟩
          ⟨"t", "", [], some ⟨some 0, none, none⟩⟩ = []) := by
  refine ⟨fun u i d vs cpl lm => ?_, fun u i d vs bm lm => ?_,
    fun u i d vs bm cpl => ?_, fun vars => ?_⟩
  · cases hlb : u.vars.lookup ("bullets") with
    | none => simp [validateSlideUnit, hlb]
    | some v => cases v <;> simp [validateSlideUnit, hlb]
  · cases hlb : u.vars.lookup ("bullets") with
    | none => cases bm <;> simp [validateSlideUnit, hlb]
    | some v => cases v <;> cases bm <;> simp [validateSlideUnit, hlb]
  · simp [validateSlideUnit]
  · cases hlb : (⟨"t", vars, none⟩ : SlideUnit).vars.lookup ("bullets") with
    | none => simp [validateSlideUnit, hlb]
    | some v => cases v <;> simp [validateSlideUnit, hlb]

end VAStudio
